import Mathlib

/-!
Verification of `convert_to_html.py`: a script that opens a hardcoded PDF
path for binary reading, runs pdfminer's `extract_text_to_fp` into an
in-memory text buffer requesting HTML output, then opens a hardcoded HTML
path for text writing (UTF-8) and writes the buffer, finally printing a
confirmation line.

The script is embedded as a pure function over an abstract filesystem
(`World`), with the extraction library abstracted as a parameter
(`PdfLib`): a fixed function of the source bytes and call parameters.
The run records an event trace so that handle-scoping and call-parameter
properties can be stated.
-/

/-- The hardcoded source path from the script (`pdf_path`). -/
def pdf_path : String :=
  "C:\\Users\\renzy\\Downloads\\CODE\\New folder\\smdi-test1\\user-workspace\\Electrical_Inspection_Checklists.pdf"

/-- The hardcoded destination path from the script (`html_path`). -/
def html_path : String :=
  "C:\\Users\\renzy\\Downloads\\Electrical_Inspection_Checklists.html"

/-- pdfminer's `LAParams` with its default field values (the script calls
`LAParams()` with no arguments).  Float defaults are embedded as rationals. -/
structure LAParams where
  line_overlap : ℚ := 1/2
  char_margin : ℚ := 2
  line_margin : ℚ := 1/2
  word_margin : ℚ := 1/10
  boxes_flow : Option ℚ := some (1/2)
  detect_vertical : Bool := false
  all_texts : Bool := false
deriving Repr, DecidableEq

/-- The external extraction library, abstracted as a fixed function of the
source file's content and the call parameters (`laparams`, `output_type`,
`codec`).  On success it returns the text it appends to the output buffer;
on failure it returns an error message (the exception it raises). -/
structure PdfLib where
  extract_text_to_fp : String → LAParams → String → Option String → Except String String

/-- The filesystem: a map from paths to file contents, together with a
predicate saying whether a path can be opened for writing (its parent
directory exists and the file can be created). -/
structure World where
  files : String → Option String
  destWritable : String → Bool

/-- Store content `s` at path `p` (create or overwrite). -/
def setFile (w : World) (p : String) (s : String) : World :=
  { w with files := fun q => if q = p then some s else w.files q }

/-- The failure classes of a run; each corresponds to an unhandled Python
exception that terminates the process with a nonzero exit status. -/
inductive Err where
  | fileNotFound (p : String)
  | extractError (msg : String)
  | destOpenFail (p : String)
deriving Repr, DecidableEq

/-- Observable events of a run, used to state handle-scoping and
call-parameter properties. -/
inductive Event where
  | openSrc (path : String) (mode : String)
  | extractCall (input : String) (laparams : LAParams)
      (output_type : String) (codec : Option String)
  | closeSrc
  | openDst (path : String) (mode : String) (encoding : Option String)
  | writeDst (data : String)
  | closeDst
  | printLine (s : String)
deriving Repr, DecidableEq

/-- The outcome of one run of the script: the final filesystem, the lines
printed to standard output, the unhandled error (if any; `none` means the
process exits with status zero), and the event trace. -/
structure RunOut where
  world : World
  stdout : List String
  err : Option Err
  trace : List Event

/-- The script `convert_to_html.py`, embedded step by step:
1. `output_string = StringIO()` — an empty text buffer;
2. `with open(pdf_path, 'rb') as in_file:` — fails if the source is missing;
3. `extract_text_to_fp(in_file, output_string, laparams=LAParams(),
   output_type='html', codec=None)` — appends the extracted HTML to the
   buffer, or raises; the `with` block closes the handle either way;
4. `with open(html_path, 'w', encoding='utf-8') as out_file:` — creates or
   truncates the destination, failing if it cannot be opened for writing;
5. `out_file.write(output_string.getvalue())` — writes the whole buffer;
6. `print(f"HTML saved to {html_path}")`. -/
def run (lib : PdfLib) (w : World) : RunOut :=
  let output_string : String := ""
  match w.files pdf_path with
  | none => ⟨w, [], some (Err.fileNotFound pdf_path), []⟩
  | some content =>
    match lib.extract_text_to_fp content {} "html" none with
    | Except.error m =>
      ⟨w, [], some (Err.extractError m),
        [Event.openSrc pdf_path "rb",
         Event.extractCall content {} "html" none,
         Event.closeSrc]⟩
    | Except.ok txt =>
      let buffer := output_string ++ txt
      if w.destWritable html_path then
        let w1 := setFile w html_path ""
        let w2 := setFile w1 html_path buffer
        ⟨w2, ["HTML saved to " ++ html_path], none,
          [Event.openSrc pdf_path "rb",
           Event.extractCall content {} "html" none,
           Event.closeSrc,
           Event.openDst html_path "w" (some "utf-8"),
           Event.writeDst buffer,
           Event.closeDst,
           Event.printLine ("HTML saved to " ++ html_path)]⟩
      else
        ⟨w, [], some (Err.destOpenFail html_path),
          [Event.openSrc pdf_path "rb",
           Event.extractCall content {} "html" none,
           Event.closeSrc]⟩

/-- The two hardcoded paths are distinct. -/
theorem pdf_path_ne_html_path : pdf_path ≠ html_path := by decide

theorem setFile_files (w : World) (p s q : String) :
    (setFile w p s).files q = if q = p then some s else w.files q := rfl

theorem setFile_destWritable (w : World) (p s : String) :
    (setFile w p s).destWritable = w.destWritable := rfl

/-- Unfolding lemma: missing source. -/
theorem run_src_missing (lib : PdfLib) (w : World)
    (h : w.files pdf_path = none) :
    run lib w = ⟨w, [], some (Err.fileNotFound pdf_path), []⟩ := by
  unfold run
  rw [h]

/-- Unfolding lemma: extraction raises. -/
theorem run_extract_err (lib : PdfLib) (w : World) (c m : String)
    (h : w.files pdf_path = some c)
    (he : lib.extract_text_to_fp c {} "html" none = Except.error m) :
    run lib w = ⟨w, [], some (Err.extractError m),
      [Event.openSrc pdf_path "rb",
       Event.extractCall c {} "html" none,
       Event.closeSrc]⟩ := by
  unfold run
  rw [h]
  dsimp only
  rw [he]

/-- Unfolding lemma: extraction succeeds and the destination is writable. -/
theorem run_ok_writable (lib : PdfLib) (w : World) (c txt : String)
    (h : w.files pdf_path = some c)
    (he : lib.extract_text_to_fp c {} "html" none = Except.ok txt)
    (hw : w.destWritable html_path = true) :
    run lib w = ⟨setFile (setFile w html_path "") html_path ("" ++ txt),
      ["HTML saved to " ++ html_path], none,
      [Event.openSrc pdf_path "rb",
       Event.extractCall c {} "html" none,
       Event.closeSrc,
       Event.openDst html_path "w" (some "utf-8"),
       Event.writeDst ("" ++ txt),
       Event.closeDst,
       Event.printLine ("HTML saved to " ++ html_path)]⟩ := by
  unfold run
  rw [h]
  dsimp only
  rw [he]
  dsimp only
  simp [hw]

/-- Unfolding lemma: extraction succeeds but the destination cannot be
opened for writing. -/
theorem run_ok_unwritable (lib : PdfLib) (w : World) (c txt : String)
    (h : w.files pdf_path = some c)
    (he : lib.extract_text_to_fp c {} "html" none = Except.ok txt)
    (hw : w.destWritable html_path = false) :
    run lib w = ⟨w, [], some (Err.destOpenFail html_path),
      [Event.openSrc pdf_path "rb",
       Event.extractCall c {} "html" none,
       Event.closeSrc]⟩ := by
  unfold run
  rw [h]
  dsimp only
  rw [he]
  dsimp only
  simp [hw]

/-- Handle-scoping checker over a trace.  Tracks whether the source and
destination handles are open; while the source handle is open only the
extraction call (and the closing of that handle) may occur, while the
destination handle is open only the write (and its close) may occur, and
the trace must end with both handles released. -/
def scopedOk : List Event → Bool → Bool → Bool
  | [], srcOpen, dstOpen => !srcOpen && !dstOpen
  | e :: es, srcOpen, dstOpen =>
    match e with
    | Event.openSrc _ _ => !srcOpen && !dstOpen && scopedOk es true false
    | Event.extractCall _ _ _ _ => srcOpen && !dstOpen && scopedOk es true false
    | Event.closeSrc => srcOpen && !dstOpen && scopedOk es false false
    | Event.openDst _ _ _ => !srcOpen && !dstOpen && scopedOk es false true
    | Event.writeDst _ => !srcOpen && dstOpen && scopedOk es false true
    | Event.closeDst => !srcOpen && dstOpen && scopedOk es false false
    | Event.printLine _ => !srcOpen && !dstOpen && scopedOk es false false

/-- A sample extraction library that always succeeds with a fixed HTML
string, used to witness the theorems below on concrete inputs. -/
def sampleLib : PdfLib :=
  ⟨fun _ _ _ _ => Except.ok "<html><body><p>Checklist</p></body></html>"⟩

/-- A sample extraction library that always succeeds with empty output. -/
def sampleLibEmpty : PdfLib := ⟨fun _ _ _ _ => Except.ok ""⟩

/-- A sample extraction library that always raises. -/
def sampleLibErr : PdfLib := ⟨fun _ _ _ _ => Except.error "not a pdf"⟩

/-- A sample world: the source PDF exists, an old destination file exists,
and every path can be opened for writing. -/
def sampleWorld : World :=
  ⟨fun p => if p = pdf_path then some "%PDF-1.4 sample"
            else if p = html_path then some "old unrelated content"
            else none,
   fun _ => true⟩

/-- A sample world with no files at all. -/
def sampleWorldNoSrc : World := ⟨fun _ => none, fun _ => true⟩

/-- A sample world where the source exists but no path can be opened for
writing (the destination's parent directory is missing). -/
def sampleWorldNoDir : World :=
  ⟨fun p => if p = pdf_path then some "%PDF-1.4 sample" else none,
   fun _ => false⟩

/-- C1: on every successful run, the content written to the destination
file is exactly the extraction buffer's content (byte for byte, hence of
equal UTF-8 byte length), and it replaces any prior destination content:
the final destination content is `some txt` regardless of what
`w.files html_path` held before the run. -/
theorem conversion_writes_full_buffer (lib : PdfLib) (w : World)
    (h : (run lib w).err = none) :
    ∃ c txt, w.files pdf_path = some c ∧
      lib.extract_text_to_fp c {} "html" none = Except.ok txt ∧
      (run lib w).world.files html_path = some txt ∧
      txt.utf8ByteSize
        = (((run lib w).world.files html_path).getD "").utf8ByteSize := by
  cases hsrc : w.files pdf_path with
  | none => rw [run_src_missing lib w hsrc] at h; exact absurd h (by simp)
  | some c =>
    cases he : lib.extract_text_to_fp c {} "html" none with
    | error m => rw [run_extract_err lib w c m hsrc he] at h; exact absurd h (by simp)
    | ok txt =>
      cases hw : w.destWritable html_path with
      | false =>
        rw [run_ok_unwritable lib w c txt hsrc he hw] at h
        exact absurd h (by simp)
      | true =>
        refine ⟨c, txt, rfl, he, ?_, ?_⟩ <;>
          rw [run_ok_writable lib w c txt hsrc he hw] <;>
          simp [setFile]

/-- C1 witness: with a concrete library and world the successful run's
destination content equals the buffer. -/
theorem conversion_writes_full_buffer_witness :
    ∃ c txt, sampleWorld.files pdf_path = some c ∧
      sampleLib.extract_text_to_fp c {} "html" none = Except.ok txt ∧
      (run sampleLib sampleWorld).world.files html_path = some txt ∧
      txt.utf8ByteSize
        = (((run sampleLib sampleWorld).world.files html_path).getD "").utf8ByteSize :=
  conversion_writes_full_buffer sampleLib sampleWorld (by rfl)

/-- C2: determinism/idempotence: if a run succeeds, running the script a
second time from the resulting state succeeds as well and leaves the
destination file with identical content. -/
theorem conversion_idempotent (lib : PdfLib) (w : World)
    (h : (run lib w).err = none) :
    (run lib (run lib w).world).err = none ∧
    (run lib (run lib w).world).world.files html_path
      = (run lib w).world.files html_path := by
  cases hsrc : w.files pdf_path with
  | none => rw [run_src_missing lib w hsrc] at h; exact absurd h (by simp)
  | some c =>
    cases he : lib.extract_text_to_fp c {} "html" none with
    | error m => rw [run_extract_err lib w c m hsrc he] at h; exact absurd h (by simp)
    | ok txt =>
      cases hw : w.destWritable html_path with
      | false =>
        rw [run_ok_unwritable lib w c txt hsrc he hw] at h
        exact absurd h (by simp)
      | true =>
        rw [run_ok_writable lib w c txt hsrc he hw]
        have hsrc2 :
            (setFile (setFile w html_path "") html_path ("" ++ txt)).files pdf_path
              = some c := by
          simp [setFile, pdf_path_ne_html_path]
          exact hsrc
        have hw2 :
            (setFile (setFile w html_path "") html_path ("" ++ txt)).destWritable
              html_path = true := hw
        rw [run_ok_writable lib _ c txt hsrc2 he hw2]
        exact ⟨rfl, rfl⟩

/-- C2 witness: a concrete successful run, repeated, yields the same
destination content. -/
theorem conversion_idempotent_witness :
    (run sampleLib (run sampleLib sampleWorld).world).err = none ∧
    (run sampleLib (run sampleLib sampleWorld).world).world.files html_path
      = (run sampleLib sampleWorld).world.files html_path :=
  conversion_idempotent sampleLib sampleWorld (by rfl)

/-- C3: if the source path does not exist the run fails with a
file-not-found error, nothing is printed, and the filesystem — in
particular the destination file — is completely untouched. -/
theorem missing_source_untouched (lib : PdfLib) (w : World)
    (h : w.files pdf_path = none) :
    (run lib w).err = some (Err.fileNotFound pdf_path) ∧
    (run lib w).world = w ∧ (run lib w).stdout = [] := by
  rw [run_src_missing lib w h]
  exact ⟨rfl, rfl, rfl⟩

/-- C3 witness: on a world with no files the run fails and changes
nothing. -/
theorem missing_source_untouched_witness :
    (run sampleLib sampleWorldNoSrc).err = some (Err.fileNotFound pdf_path) ∧
    (run sampleLib sampleWorldNoSrc).world = sampleWorldNoSrc ∧
    (run sampleLib sampleWorldNoSrc).stdout = [] :=
  missing_source_untouched sampleLib sampleWorldNoSrc rfl

/-- C4: every failure is fatal and unhandled — the run ends with a nonzero
exit status (an `err`), the filesystem is left exactly as it was (no
partial output, no cleanup, no retry) and nothing is printed; moreover a
destination whose parent directory is missing always makes the run fail. -/
theorem failure_fatal_no_cleanup (lib : PdfLib) (w : World)
    (h : (run lib w).err ≠ none ∨ w.destWritable html_path = false) :
    (run lib w).err ≠ none ∧ (run lib w).world = w ∧
    (run lib w).stdout = [] := by
  cases hsrc : w.files pdf_path with
  | none => rw [run_src_missing lib w hsrc]; exact ⟨by simp, rfl, rfl⟩
  | some c =>
    cases he : lib.extract_text_to_fp c {} "html" none with
    | error m => rw [run_extract_err lib w c m hsrc he]; exact ⟨by simp, rfl, rfl⟩
    | ok txt =>
      cases hw : w.destWritable html_path with
      | false => rw [run_ok_unwritable lib w c txt hsrc he hw]; exact ⟨by simp, rfl, rfl⟩
      | true =>
        exfalso
        rcases h with h | h
        · rw [run_ok_writable lib w c txt hsrc he hw] at h; exact h rfl
        · rw [hw] at h; exact Bool.noConfusion h

/-- C4 witness: with the destination's parent directory missing the
concrete run fails, changes nothing and prints nothing. -/
theorem failure_fatal_no_cleanup_witness :
    (run sampleLib sampleWorldNoDir).err ≠ none ∧
    (run sampleLib sampleWorldNoDir).world = sampleWorldNoDir ∧
    (run sampleLib sampleWorldNoDir).stdout = [] :=
  failure_fatal_no_cleanup sampleLib sampleWorldNoDir (Or.inr rfl)

/-- C5: the run prints exactly one line, `HTML saved to ` followed by the
destination path, when it succeeds, and prints nothing itself when it
fails. -/
theorem stdout_exactly_one_line (lib : PdfLib) (w : World) :
    (run lib w).stdout =
      if (run lib w).err = none then ["HTML saved to " ++ html_path]
      else [] := by
  cases hsrc : w.files pdf_path with
  | none => rw [run_src_missing lib w hsrc]; simp
  | some c =>
    cases he : lib.extract_text_to_fp c {} "html" none with
    | error m => rw [run_extract_err lib w c m hsrc he]; simp
    | ok txt =>
      cases hw : w.destWritable html_path with
      | false => rw [run_ok_unwritable lib w c txt hsrc he hw]; simp
      | true => rw [run_ok_writable lib w c txt hsrc he hw]; simp

/-- C6: once extraction has succeeded, the destination is opened for text
writing in mode `w` with UTF-8 encoding; when the path is writable this
creates or truncates the file (the final state is the truncate-then-write
composition, independent of any prior content) and the run succeeds, and
when the parent directory is missing or the file cannot be created the
open fails with an I/O-class error and the filesystem is unchanged. -/
theorem dest_open_w_utf8_truncates (lib : PdfLib) (w : World) (c txt : String)
    (h : w.files pdf_path = some c)
    (he : lib.extract_text_to_fp c {} "html" none = Except.ok txt) :
    (w.destWritable html_path = true →
      (run lib w).err = none ∧
      Event.openDst html_path "w" (some "utf-8") ∈ (run lib w).trace ∧
      (run lib w).world
        = setFile (setFile w html_path "") html_path ("" ++ txt)) ∧
    (w.destWritable html_path = false →
      (run lib w).err = some (Err.destOpenFail html_path) ∧
      (run lib w).world = w) := by
  constructor
  · intro hw
    rw [run_ok_writable lib w c txt h he hw]
    refine ⟨rfl, ?_, rfl⟩
    simp
  · intro hw
    rw [run_ok_unwritable lib w c txt h he hw]
    exact ⟨rfl, rfl⟩

/-- C6 witness: concrete instantiation of the destination-open behavior. -/
theorem dest_open_w_utf8_truncates_witness :
    (sampleWorld.destWritable html_path = true →
      (run sampleLib sampleWorld).err = none ∧
      Event.openDst html_path "w" (some "utf-8") ∈ (run sampleLib sampleWorld).trace ∧
      (run sampleLib sampleWorld).world
        = setFile (setFile sampleWorld html_path "") html_path
            ("" ++ "<html><body><p>Checklist</p></body></html>")) ∧
    (sampleWorld.destWritable html_path = false →
      (run sampleLib sampleWorld).err = some (Err.destOpenFail html_path) ∧
      (run sampleLib sampleWorld).world = sampleWorld) :=
  dest_open_w_utf8_truncates sampleLib sampleWorld "%PDF-1.4 sample"
    "<html><body><p>Checklist</p></body></html>" rfl rfl

/-- C7: whenever the extraction routine is invoked during a run, it is
invoked on the content of the opened source file, with a
default-constructed `LAParams`, with `output_type` equal to `html`, and
with `codec` unset. -/
theorem extraction_call_params (lib : PdfLib) (w : World)
    (c : String) (la : LAParams) (ot : String) (cod : Option String)
    (h : Event.extractCall c la ot cod ∈ (run lib w).trace) :
    w.files pdf_path = some c ∧ la = {} ∧ ot = "html" ∧ cod = none := by
  cases hsrc : w.files pdf_path with
  | none =>
    rw [run_src_missing lib w hsrc] at h
    exact absurd h (by simp)
  | some c0 =>
    cases he : lib.extract_text_to_fp c0 {} "html" none with
    | error m =>
      rw [run_extract_err lib w c0 m hsrc he] at h
      cases h with
      | tail _ h =>
        cases h with
        | head => exact ⟨rfl, rfl, rfl, rfl⟩
        | tail _ h =>
          cases h with
          | tail _ h => cases h
    | ok txt =>
      cases hw : w.destWritable html_path with
      | false =>
        rw [run_ok_unwritable lib w c0 txt hsrc he hw] at h
        cases h with
        | tail _ h =>
          cases h with
          | head => exact ⟨rfl, rfl, rfl, rfl⟩
          | tail _ h =>
            cases h with
            | tail _ h => cases h
      | true =>
        rw [run_ok_writable lib w c0 txt hsrc he hw] at h
        cases h with
        | tail _ h =>
          cases h with
          | head => exact ⟨rfl, rfl, rfl, rfl⟩
          | tail _ h =>
            cases h with
            | tail _ h =>
              cases h with
              | tail _ h =>
                cases h with
                | tail _ h =>
                  cases h with
                  | tail _ h =>
                    cases h with
                    | tail _ h => cases h

/-- C7 witness: the concrete run's trace contains an extraction call, and
its parameters are the source content, default layout parameters, `html`
output and no codec. -/
theorem extraction_call_params_witness :
    sampleWorld.files pdf_path = some "%PDF-1.4 sample" ∧
    ({} : LAParams) = {} ∧ "html" = "html" ∧
    (none : Option String) = none :=
  extraction_call_params sampleLib sampleWorld "%PDF-1.4 sample" {} "html" none
    (by
      rw [run_ok_writable sampleLib sampleWorld "%PDF-1.4 sample"
        "<html><body><p>Checklist</p></body></html>" rfl rfl rfl]
      exact List.Mem.tail _ (List.Mem.head _))

/-- C8: in every run, the source handle is open only around the extraction
call and the destination handle only around the write, each released
before anything else happens, and both are released by the end of the
trace. -/
theorem handles_scoped (lib : PdfLib) (w : World) :
    scopedOk (run lib w).trace false false = true := by
  cases hsrc : w.files pdf_path with
  | none => rw [run_src_missing lib w hsrc]; rfl
  | some c =>
    cases he : lib.extract_text_to_fp c {} "html" none with
    | error m => rw [run_extract_err lib w c m hsrc he]; rfl
    | ok txt =>
      cases hw : w.destWritable html_path with
      | false => rw [run_ok_unwritable lib w c txt hsrc he hw]; rfl
      | true => rw [run_ok_writable lib w c txt hsrc he hw]; rfl

/-- C9: if extraction fails, the run terminates with that error, the
filesystem (in particular the destination) is exactly as before, and the
destination is never opened or written: no open-for-write and no write
event appears in the trace. -/
theorem extract_failure_dest_untouched (lib : PdfLib) (w : World) (c m : String)
    (h : w.files pdf_path = some c)
    (he : lib.extract_text_to_fp c {} "html" none = Except.error m) :
    (run lib w).err = some (Err.extractError m) ∧
    (run lib w).world = w ∧
    (∀ p mo enc, Event.openDst p mo enc ∉ (run lib w).trace) ∧
    (∀ d, Event.writeDst d ∉ (run lib w).trace) := by
  rw [run_extract_err lib w c m h he]
  refine ⟨rfl, rfl, ?_, ?_⟩ <;> intros <;> simp

/-- C9 witness: a concretely failing extraction leaves the destination
alone. -/
theorem extract_failure_dest_untouched_witness :
    (run sampleLibErr sampleWorld).err
      = some (Err.extractError "not a pdf") ∧
    (run sampleLibErr sampleWorld).world = sampleWorld ∧
    (∀ p mo enc, Event.openDst p mo enc ∉ (run sampleLibErr sampleWorld).trace) ∧
    (∀ d, Event.writeDst d ∉ (run sampleLibErr sampleWorld).trace) :=
  extract_failure_dest_untouched sampleLibErr sampleWorld "%PDF-1.4 sample"
    "not a pdf" rfl rfl

/-- C10: if extraction succeeds with empty output the run still succeeds:
the destination file is created (or truncated) with empty content and the
confirmation line is printed. -/
theorem empty_extraction_still_succeeds (lib : PdfLib) (w : World) (c : String)
    (h : w.files pdf_path = some c)
    (he : lib.extract_text_to_fp c {} "html" none = Except.ok "")
    (hw : w.destWritable html_path = true) :
    (run lib w).err = none ∧
    (run lib w).world.files html_path = some "" ∧
    (run lib w).stdout = ["HTML saved to " ++ html_path] := by
  rw [run_ok_writable lib w c "" h he hw]
  refine ⟨rfl, ?_, rfl⟩
  simp [setFile]

/-- C10 witness: a concrete run with an empty extraction result succeeds
and writes an empty destination file. -/
theorem empty_extraction_still_succeeds_witness :
    (run sampleLibEmpty sampleWorld).err = none ∧
    (run sampleLibEmpty sampleWorld).world.files html_path = some "" ∧
    (run sampleLibEmpty sampleWorld).stdout = ["HTML saved to " ++ html_path] :=
  empty_extraction_still_succeeds sampleLibEmpty sampleWorld "%PDF-1.4 sample"
    rfl rfl rfl
